import Mathlib

/-!
Verification of the distributed rate limiter against its specification.

The definitions below are a shallow embedding of the Python sources:
  * `src/src/core/models.py` (data model),
  * `src/src/core/config.py` (configuration loading),
  * `src/src/core/redis_client.py` (store client, Lua counter script,
    circuit breaker, security counters),
  * `src/src/services/rate_limit_service.py` (admission engine),
  * `src/src/services/user_service.py` (identity resolution, abuse
    sub-limiter),
  * `src/src/middleware/rate_limiter.py` (pipeline adapter).

Machine integers are modelled by `Nat` (Python integers are unbounded and
all quantities involved are non-negative); strings by `String`; fallible
store calls by `Except StoreError`; the atomic Lua script by a single
state transformer over the key-value store (Redis executes scripts
atomically, so one Lean function is the faithful image of one script run).
-/

namespace RateLimiter

/-- Tier descriptor, from `TierConfig` in `core/models.py`. -/
structure TierConfig where
  base_limit : Nat
  burst_limit : Nat
  degraded_limit : Nat
  window_minutes : Nat
deriving DecidableEq, Repr

/-- `RateLimitService._calculate_effective_limit` from
`services/rate_limit_service.py` (lines 202-314).  Health states are the
strings of the `SystemHealth` str-enum; the function receives the health
value as a string and compares it against `"NORMAL"` and `"DEGRADED"`. -/
def calculate_effective_limit (tier : String) (tier_config : TierConfig)
    (system_health : String) : Nat :=
  if system_health = "NORMAL" then
    -- During normal operation, allow burst limits (for every tier).
    tier_config.burst_limit
  else if system_health = "DEGRADED" then
    if tier = "free" then
      tier_config.degraded_limit
    else if tier = "pro" ∨ tier = "enterprise" then
      tier_config.base_limit
    else
      tier_config.base_limit
  else
    tier_config.base_limit

/-- Claim C1 (counterexample): the claim's policy table demands `base` for
an unknown tier name under NORMAL health, but the code applies the burst
limit to every tier whenever health is NORMAL.  With the tier descriptor
`{base 10, burst 20, degraded 2, window 1}` and the unknown tier name
`"basic"`, the computed limit is 20, not the base value 10. -/
theorem effective_limit_normal_unknown_cx :
    calculate_effective_limit "basic" ⟨10, 20, 2, 1⟩ "NORMAL" = 20 ∧
    (⟨10, 20, 2, 1⟩ : TierConfig).base_limit = 10 ∧ (20 : Nat) ≠ 10 := by
  refine ⟨by decide, rfl, by decide⟩

/-- Claim C1 (amended): for every tier name `t` and tier descriptor, the
effective limit is `burst` under NORMAL health for every tier name
(unknown tiers included); under DEGRADED it is `degraded` for `free` and
`base` for every other tier name; under any other health value it is
`base` for every tier. -/
theorem effective_limit_policy (t : String) (cfg : TierConfig) :
    calculate_effective_limit t cfg "NORMAL" = cfg.burst_limit ∧
    (t = "free" → calculate_effective_limit t cfg "DEGRADED" = cfg.degraded_limit) ∧
    (t ≠ "free" → calculate_effective_limit t cfg "DEGRADED" = cfg.base_limit) ∧
    (∀ h, h ≠ "NORMAL" → h ≠ "DEGRADED" →
      calculate_effective_limit t cfg h = cfg.base_limit) := by
  refine ⟨rfl, ?_, ?_, ?_⟩
  · intro ht
    simp [calculate_effective_limit, ht]
  · intro ht
    simp [calculate_effective_limit, ht]
  · intro h h1 h2
    simp [calculate_effective_limit, h1, h2]

/-- Claim C1 (witness): the amended policy evaluated at concrete inputs;
the free tier under DEGRADED health receives its degraded limit. -/
theorem effective_limit_policy_witness :
    calculate_effective_limit "free" ⟨10, 20, 2, 1⟩ "DEGRADED" = 2 :=
  (effective_limit_policy "free" ⟨10, 20, 2, 1⟩).2.1 rfl

/-! ### Shared-store model and the atomic counter script -/

/-- Errors a store call can raise: the circuit breaker's `CircuitOpen`
signal (a `ConnectionError` in `redis_client.py`) or any other Redis
error. -/
inductive StoreError where
  | circuitOpen
  | redisError
deriving DecidableEq, Repr

/-- The state of one Redis key holding a window counter: `none` when the
key is absent, otherwise the integer value together with its optional TTL
(`none` = the key exists but has no expiry, Redis `TTL` = -1). -/
def KeyState := Option (Nat × Option Nat)

/-- The key-value store, as a map from key names to key states. -/
def Store := String → KeyState

/-- Point update of the store. -/
def Store.update (s : Store) (k : String) (v : KeyState) : Store :=
  fun k' => if k' = k then v else s k'

/-- The value `GET` returns for a window key, with absent read as 0
(`if current == false then current = 0` in the script). -/
def KeyState.count : KeyState → Nat
  | none => 0
  | some (c, _) => c

/-- `RedisClient._rate_limit_script` from `core/redis_client.py`
(lines 80-112), the Lua script Redis runs atomically: compute the window
start and the window key, read the counter, and either reject (back-filling
a missing TTL with `window`) or increment and refresh the TTL to
`window + 1`.  Returns the script's `{allowed, count, reset}` triple and
the store after the run. -/
def rate_limit_script (store : Store) (key : String)
    (window limit current_time : Nat) : (Bool × Nat × Nat) × Store :=
  let window_start := current_time / window * window
  let window_key := key ++ ":" ++ toString window_start
  let current := (store window_key).count
  if limit ≤ current then
    -- Check if limit exceeded: repair a missing TTL, do not increment.
    let store' :=
      match store window_key with
      | some (c, none) => store.update window_key (some (c, some window))
      | _ => store
    ((false, current, window_start + window), store')
  else
    -- Increment counter and set expiration (extra second for safety).
    let new_count := current + 1
    ((true, new_count, window_start + window),
      store.update window_key (some (new_count, some (window + 1))))

/-- `RedisClient.check_rate_limit` from `core/redis_client.py`
(lines 249-335): build the user key, convert the window to seconds and run
the atomic script. -/
def redis_check_rate_limit (store : Store) (user_id : String)
    (limit window_minutes current_time : Nat) : (Bool × Nat × Nat) × Store :=
  rate_limit_script store ("rate_limit:user:" ++ user_id)
    (window_minutes * 60) limit current_time

/-- The window start computed by the script: `floor(now / W) * W`. -/
def window_start (W now : Nat) : Nat := now / W * W

/-- The window key the script touches: `<key>:<window_start>`. -/
def window_key (key : String) (W now : Nat) : String :=
  key ++ ":" ++ toString (window_start W now)

/-- Claim C3: the atomic counter operation over the window key for
`window_start = (now / W) * W` (one script run, hence one indivisible
unit): it reads the current count `c` (0 if the key is absent); if
`c ≥ L` it returns `(false, c, window_start + W)` and, only when the key
exists with no TTL, sets TTL = `W`, leaving an absent or TTL-carrying
window key and every other key untouched; otherwise it increments the
counter to `c + 1`, unconditionally sets TTL = `W + 1`, and returns
`(true, c + 1, window_start + W)`.  (`L ≥ 0` holds for free since limits
are naturals.) -/
theorem rate_limit_script_spec (store : Store) (key : String)
    (L W now : Nat) (hW : 0 < W) :
    (L ≤ (store (window_key key W now)).count →
      (rate_limit_script store key W L now).1 =
        (false, (store (window_key key W now)).count, window_start W now + W) ∧
      (∀ c0, store (window_key key W now) = some (c0, none) →
        (rate_limit_script store key W L now).2 (window_key key W now) =
          some (c0, some W)) ∧
      (store (window_key key W now) = none →
        (rate_limit_script store key W L now).2 (window_key key W now) = none) ∧
      (∀ c0 t0, store (window_key key W now) = some (c0, some t0) →
        (rate_limit_script store key W L now).2 (window_key key W now) =
          store (window_key key W now))) ∧
    ((store (window_key key W now)).count < L →
      (rate_limit_script store key W L now).1 =
        (true, (store (window_key key W now)).count + 1, window_start W now + W) ∧
      (rate_limit_script store key W L now).2 (window_key key W now) =
        some ((store (window_key key W now)).count + 1, some (W + 1))) ∧
    (∀ k', k' ≠ window_key key W now →
      (rate_limit_script store key W L now).2 k' = store k') := by
  refine ⟨?_, ?_, ?_⟩
  · intro hle
    simp only [rate_limit_script, window_key, window_start] at hle ⊢
    rw [if_pos hle]
    refine ⟨rfl, ?_, ?_, ?_⟩
    · intro c0 h0
      simp [h0, Store.update]
    · intro h0
      simp only [h0]
    · intro c0 t0 h0
      simp only [h0]
  · intro hlt
    simp only [rate_limit_script, window_key, window_start] at hlt ⊢
    rw [if_neg (by omega)]
    exact ⟨rfl, by simp [Store.update]⟩
  · intro k' hk'
    simp only [rate_limit_script, window_key, window_start] at hk' ⊢
    split
    · split
      · simp [Store.update, hk']
      · rfl
    · simp [Store.update, hk']

/-- Claim C3 (witness): the script applied to the empty store with limit
2, window 60 and time 130: the window key is created with count 1 and
TTL 61, the result is `(true, 1, 180)`, and other keys stay absent. -/
theorem rate_limit_script_spec_witness :
    (rate_limit_script (fun _ => none) "rate_limit:user:u1" 60 2 130).1 =
      (true, 1, 180) ∧
    (rate_limit_script (fun _ => none) "rate_limit:user:u1" 60 2 130).2
      "rate_limit:user:u1:120" = some (1, some 61) ∧
    (rate_limit_script (fun _ => none) "rate_limit:user:u1" 60 2 130).2
      "other" = none := by
  have h := rate_limit_script_spec (fun _ => none) "rate_limit:user:u1"
    2 60 130 (by decide)
  refine ⟨?_, ?_, ?_⟩
  · have := (h.2.1 (by decide)).1
    simpa using this
  · have := (h.2.1 (by decide)).2
    simpa using this
  · have := h.2.2 "other" (by decide)
    simpa using this

/-! ### Circuit breaker -/

/-- The circuit breaker's three states (`self.state` strings in
`core/redis_client.py`). -/
inductive CBState where
  | closed
  | opened
  | halfOpen
deriving DecidableEq, Repr

/-- `CircuitBreaker` from `core/redis_client.py` (lines 24-60).  Defaults
are `failure_threshold = 5`, `reset_timeout = 60`; times are unix
seconds. -/
structure CircuitBreaker where
  failure_threshold : Nat
  reset_timeout : Nat
  failure_count : Nat
  last_failure_time : Nat
  state : CBState
deriving DecidableEq, Repr

/-- A freshly constructed breaker: zero failures, closed. -/
def CircuitBreaker.init (failure_threshold reset_timeout : Nat) :
    CircuitBreaker :=
  ⟨failure_threshold, reset_timeout, 0, 0, .closed⟩

/-- `CircuitBreaker.can_execute`: returns whether the operation may run
and the (possibly updated) breaker — in the open state, once more than
`reset_timeout` seconds passed since the last failure, the breaker flips
to half-open and admits the probe. -/
def CircuitBreaker.can_execute (cb : CircuitBreaker) (now : Nat) :
    Bool × CircuitBreaker :=
  if cb.state = .closed then (true, cb)
  else if cb.state = .opened then
    if cb.reset_timeout < now - cb.last_failure_time then
      (true, { cb with state := .halfOpen })
    else
      (false, cb)
  else
    -- half-open state
    (true, cb)

/-- `CircuitBreaker.on_success`: reset the failure count and close. -/
def CircuitBreaker.on_success (cb : CircuitBreaker) : CircuitBreaker :=
  { cb with failure_count := 0, state := .closed }

/-- `CircuitBreaker.on_failure`: bump the failure count, remember the
time, and open once the count reaches the threshold (otherwise the state
is left as it was). -/
def CircuitBreaker.on_failure (cb : CircuitBreaker) (now : Nat) :
    CircuitBreaker :=
  let fc := cb.failure_count + 1
  { cb with
    failure_count := fc
    last_failure_time := now
    state := if cb.failure_threshold ≤ fc then .opened else cb.state }

/-- `RedisClient._execute_with_circuit_breaker` from
`core/redis_client.py` (lines 234-247): when `can_execute` refuses, raise
the circuit-open `ConnectionError` without touching the store; otherwise
run the store operation and record success or failure.  The final `Bool`
records whether the store was reached. -/
def execute_with_circuit_breaker {α : Type} (cb : CircuitBreaker)
    (now : Nat) (op : Except StoreError α) :
    Except StoreError α × CircuitBreaker × Bool :=
  let r := cb.can_execute now
  if r.1 then
    match op with
    | .ok a => (.ok a, r.2.on_success, true)
    | .error e => (.error e, r.2.on_failure now, true)
  else
    (.error .circuitOpen, r.2, false)

/-- The three breaker methods as a labelled transition system, mirroring
the call sites in `redis_client.py`. -/
inductive CBEvent where
  | canExec (now : Nat)
  | opSuccess
  | opFailure (now : Nat)
deriving DecidableEq, Repr

/-- One method call on the breaker. -/
def CircuitBreaker.stepEvent (cb : CircuitBreaker) : CBEvent → CircuitBreaker
  | .canExec now => (cb.can_execute now).2
  | .opSuccess => cb.on_success
  | .opFailure now => cb.on_failure now

/-- Running a sequence of method calls. -/
def CircuitBreaker.runEvents (cb : CircuitBreaker) (es : List CBEvent) :
    CircuitBreaker :=
  es.foldl CircuitBreaker.stepEvent cb

/-- The breaker states reachable from a fresh breaker by any sequence of
method calls. -/
inductive CircuitBreaker.Reachable (ft rt : Nat) : CircuitBreaker → Prop
  | init : CircuitBreaker.Reachable ft rt (CircuitBreaker.init ft rt)
  | step {cb : CircuitBreaker} (e : CBEvent) :
      CircuitBreaker.Reachable ft rt cb →
      CircuitBreaker.Reachable ft rt (cb.stepEvent e)

/-- Reachable states keep their configured thresholds, and an open or
half-open reachable state has accumulated at least `failure_threshold`
failures (nothing below `on_success` ever lowers the count). -/
theorem CircuitBreaker.reachable_invariant {ft rt : Nat}
    {cb : CircuitBreaker} (h : CircuitBreaker.Reachable ft rt cb) :
    cb.failure_threshold = ft ∧ cb.reset_timeout = rt ∧
    (cb.state = .opened ∨ cb.state = .halfOpen → ft ≤ cb.failure_count) := by
  induction h with
  | init => exact ⟨rfl, rfl, by intro h; cases h <;> simp_all [CircuitBreaker.init]⟩
  | step e hr ih =>
    obtain ⟨ih1, ih2, ih3⟩ := ih
    rename_i cb0
    cases e with
    | canExec now =>
      simp only [CircuitBreaker.stepEvent, CircuitBreaker.can_execute]
      cases hst : cb0.state with
      | closed =>
        rw [if_pos rfl]
        exact ⟨ih1, ih2, fun h => by cases h <;> simp_all⟩
      | opened =>
        rw [if_neg (by decide), if_pos rfl]
        by_cases hrt : cb0.reset_timeout < now - cb0.last_failure_time
        · rw [if_pos hrt]
          exact ⟨ih1, ih2, fun _ => ih3 (Or.inl hst)⟩
        · rw [if_neg hrt]
          exact ⟨ih1, ih2, fun _ => ih3 (Or.inl hst)⟩
      | halfOpen =>
        rw [if_neg (by decide), if_neg (by decide)]
        exact ⟨ih1, ih2, fun _ => ih3 (Or.inr hst)⟩
    | opSuccess =>
      refine ⟨ih1, ih2, ?_⟩
      simp [CircuitBreaker.stepEvent, CircuitBreaker.on_success]
    | opFailure now =>
      refine ⟨ih1, ih2, ?_⟩
      simp only [CircuitBreaker.stepEvent, CircuitBreaker.on_failure]
      split
      · intro _
        omega
      · intro hs
        have := ih3 hs
        omega

/-- The method-call trace refuting the "no attempts" reading of the
open → half-open rule: five failing calls open the breaker at time 5, a
rejected attempt follows at time 30, and the probe at time 66 is let
through. -/
def cb_cx_trace : List CBEvent :=
  [.canExec 1, .opFailure 1, .canExec 2, .opFailure 2, .canExec 3,
   .opFailure 3, .canExec 4, .opFailure 4, .canExec 5, .opFailure 5,
   .canExec 30]

/-- Claim C7 (counterexample): with the default thresholds (5, 60) the
breaker opens after five consecutive failures (last failure at time 5)
and is still open after the rejected attempt at time 30; the attempt at
time 66 nevertheless moves it to half-open, although only 36 seconds —
fewer than `reset_timeout = 60` — passed since the attempt at time 30.
The open → half-open transition therefore does not require
`reset_timeout` seconds *without attempts*; it only requires that much
time since the last recorded failure. -/
theorem circuit_breaker_attempts_cx :
    ((CircuitBreaker.init 5 60).runEvents cb_cx_trace).state = .opened ∧
    ((CircuitBreaker.init 5 60).runEvents
        (cb_cx_trace ++ [.canExec 66])).state = .halfOpen ∧
    66 - 30 < 60 := by
  refine ⟨by decide, by decide, by decide⟩

/-- Claim C7 (amended): every reachable state of the circuit breaker
obeys: from closed, a failure moves it to open exactly when the
consecutive-failure count reaches `failure_threshold` (default 5); from
open, an attempt moves it to half-open exactly when more than
`reset_timeout` seconds (default 60) have elapsed since the last
*recorded failure* (attempts rejected while open do not postpone the
transition); while open and within the timeout, operations are rejected
immediately with the circuit-open signal, without reaching the store and
without changing the breaker; from half-open a single successful call
moves it to closed and resets the failure count, and any failure moves
it back to open. -/
theorem circuit_breaker_transitions (ft rt : Nat) (cb : CircuitBreaker)
    (h : CircuitBreaker.Reachable ft rt cb) (now : Nat) :
    (cb.state = .closed →
      ((cb.on_failure now).state = .opened ↔
        cb.failure_threshold ≤ cb.failure_count + 1)) ∧
    (cb.state = .opened →
      (((cb.can_execute now).2).state = .halfOpen ↔
        cb.reset_timeout < now - cb.last_failure_time)) ∧
    (cb.state = .opened → now - cb.last_failure_time ≤ cb.reset_timeout →
      ∀ (α : Type) (op : Except StoreError α),
        execute_with_circuit_breaker cb now op =
          (Except.error .circuitOpen, cb, false)) ∧
    (cb.state = .halfOpen →
      cb.on_success.state = .closed ∧ cb.on_success.failure_count = 0) ∧
    (cb.state = .halfOpen → (cb.on_failure now).state = .opened) := by
  refine ⟨?_, ?_, ?_, ?_, ?_⟩
  · intro hst
    simp only [CircuitBreaker.on_failure]
    constructor
    · intro hopen
      by_contra hc
      rw [if_neg hc, hst] at hopen
      exact absurd hopen (by decide)
    · intro hle
      rw [if_pos hle]
  · intro hst
    simp only [CircuitBreaker.can_execute, hst]
    by_cases hrt : cb.reset_timeout < now - cb.last_failure_time
    · simp [hrt]
    · simp [hrt, hst]
  · intro hst hle α op
    have hrt : ¬ cb.reset_timeout < now - cb.last_failure_time := by omega
    simp [execute_with_circuit_breaker, CircuitBreaker.can_execute, hst, hrt]
  · intro _
    exact ⟨rfl, rfl⟩
  · intro hst
    have hinv := (CircuitBreaker.reachable_invariant h).2.2 (Or.inr hst)
    have hft := (CircuitBreaker.reachable_invariant h).1
    simp only [CircuitBreaker.on_failure]
    rw [if_pos (by omega)]

/-- Claim C7 (witness): the amended transition rules applied to the
freshly constructed breaker (closed, zero failures, defaults 5/60): a
single failure does not open it, since 5 ≤ 1 fails. -/
theorem circuit_breaker_transitions_witness :
    ((CircuitBreaker.init 5 60).on_failure 7).state = .opened ↔
      (5 : Nat) ≤ 0 + 1 :=
  (circuit_breaker_transitions 5 60 (CircuitBreaker.init 5 60)
    CircuitBreaker.Reachable.init 7).1 rfl

/-! ### Admission engine -/

/-- `RateLimitResult` from `core/models.py`. -/
structure RateLimitResult where
  allowed : Bool
  remaining : Nat
  reset_time : Nat
  limit : Nat
  user_id : String
  tier : String
deriving DecidableEq, Repr

/-- The fixed fallback tier descriptor substituted by
`RateLimitService.check_rate_limit` when the tier has no configuration
entry (`rate_limit_service.py` lines 62-68). -/
def fallback_tier_config : TierConfig :=
  { base_limit := 10, burst_limit := 10, degraded_limit := 2,
    window_minutes := 1 }

/-- Tier lookup with the fallback, as performed at the top of
`RateLimitService.check_rate_limit` (lines 50-68): the configured tier
table is consulted, and a missing entry yields the fixed fallback
descriptor. -/
def tier_config_for (tiers : List (String × TierConfig)) (tier : String) :
    TierConfig :=
  match tiers.lookup tier with
  | some cfg => cfg
  | none => fallback_tier_config

/-- `RateLimitService.check_rate_limit` from
`services/rate_limit_service.py` (lines 30-200), with the store call's
outcome passed in explicitly: resolve the tier configuration (fallback on
a missing entry), compute the effective limit from tier and health, then
either shape the store's `(allowed, count, reset)` triple into a decision
with `remaining = max(0, limit - count)` (`Nat` subtraction is exactly
that), or — when the store call raised, the circuit-open signal
included — produce the fail-open fallback decision.  The function is
total: no store error reaches the caller. -/
def service_check_rate_limit (tiers : List (String × TierConfig))
    (user_id tier system_health : String)
    (store_result : Except StoreError (Bool × Nat × Nat)) (now : Nat) :
    RateLimitResult :=
  let tier_config := tier_config_for tiers tier
  let effective_limit := calculate_effective_limit tier tier_config system_health
  match store_result with
  | .ok (allowed, current_count, reset_time) =>
      { allowed := allowed
        remaining := effective_limit - current_count
        reset_time := reset_time
        limit := effective_limit
        user_id := user_id
        tier := tier }
  | .error _ =>
      -- Fallback: allow request but with minimal remaining count.
      { allowed := true
        remaining := 1
        reset_time := now + tier_config.window_minutes * 60
        limit := effective_limit
        user_id := user_id
        tier := tier }

/-- The full admission step against the store: the counter call runs
through the circuit breaker (`redis_client.py`), and the service shapes
whatever comes back. -/
def admission_with_store (tiers : List (String × TierConfig))
    (user_id tier system_health : String) (cb : CircuitBreaker)
    (op : Except StoreError (Bool × Nat × Nat)) (now : Nat) :
    RateLimitResult × CircuitBreaker :=
  let r := execute_with_circuit_breaker cb now op
  (service_check_rate_limit tiers user_id tier system_health r.1 now, r.2.1)

/-- Claim C4: whenever the store counter call raises — any store error,
or the circuit-open rejection issued before the store is even reached —
the service returns the fallback decision: `allowed = true`,
`remaining = 1`, `limit` the effective limit already computed for the
request's tier and health, and `reset_time = now + window_seconds`.  The
error never surfaces: `service_check_rate_limit` is total in the store
outcome. -/
theorem admission_fallback_on_store_error
    (tiers : List (String × TierConfig))
    (user_id tier system_health : String) (cb : CircuitBreaker)
    (op : Except StoreError (Bool × Nat × Nat)) (now : Nat)
    (hfail : (∃ e, op = .error e) ∨ (cb.can_execute now).1 = false) :
    (admission_with_store tiers user_id tier system_health cb op now).1 =
      { allowed := true
        remaining := 1
        reset_time := now + (tier_config_for tiers tier).window_minutes * 60
        limit := calculate_effective_limit tier (tier_config_for tiers tier)
          system_health
        user_id := user_id
        tier := tier } := by
  simp only [admission_with_store, execute_with_circuit_breaker]
  rcases hfail with ⟨e, rfl⟩ | hopen
  · split
    · rfl
    · rfl
  · rw [if_neg (by simp [hopen])]
    rfl

/-- Claim C4 (witness): a breaker opened at time 100 (thresholds 5/60)
rejects the call at time 110 without consulting the store, and the
service emits the fallback decision even though the store operation
itself would have succeeded. -/
theorem admission_fallback_on_store_error_witness :
    (admission_with_store [("free", ⟨10, 20, 2, 1⟩)] "u1" "free" "NORMAL"
        ⟨5, 60, 5, 100, .opened⟩ (.ok (true, 3, 160)) 110).1 =
      { allowed := true, remaining := 1, reset_time := 170, limit := 20,
        user_id := "u1", tier := "free" } := by
  have h := admission_fallback_on_store_error [("free", ⟨10, 20, 2, 1⟩)]
    "u1" "free" "NORMAL" ⟨5, 60, 5, 100, .opened⟩ (.ok (true, 3, 160)) 110
    (Or.inr (by decide))
  simpa using h

/-! ### Response shaping -/

/-- Headers added to admitted responses by
`RateLimitMiddleware._add_rate_limit_headers`
(`middleware/rate_limiter.py` lines 485-495). -/
def add_rate_limit_headers (r : RateLimitResult) : List (String × String) :=
  [("X-RateLimit-Limit", toString r.limit),
   ("X-RateLimit-Remaining", toString r.remaining),
   ("X-RateLimit-Reset", toString r.reset_time)]

/-- Headers of the 429 response built by
`RateLimitMiddleware._create_rate_limited_response`
(`middleware/rate_limiter.py` lines 453-483); `Retry-After` is clamped to
at least one second. -/
def rate_limited_headers (r : RateLimitResult) (request_id : String)
    (now : Nat) : List (String × String) :=
  [("X-Request-ID", request_id),
   ("X-RateLimit-Limit", toString r.limit),
   ("X-RateLimit-Remaining", "0"),
   ("X-RateLimit-Reset", toString r.reset_time),
   ("Retry-After", toString (max 1 (r.reset_time - now)))]

/-- Claim C5: for a decision produced from a successful counter call with
limit `L`, post-decision count `c` and window `W`: `remaining` equals
`max(0, L - c)` (stated over `Int`, where the subtraction can go
negative), which is `L - c` when the request is admitted — so
`remaining + c = L` — and `0` when it is rejected for limit; the reset
epoch is `window_start + W`; and the 429 response carries the header
`X-RateLimit-Remaining: 0`. -/
theorem decision_header_coherence (store : Store)
    (tiers : List (String × TierConfig))
    (user_id tier system_health request_id : String) (now : Nat)
    (L W : Nat) (res : Bool × Nat × Nat) (r : RateLimitResult)
    (hL : L = calculate_effective_limit tier (tier_config_for tiers tier)
      system_health)
    (hW : W = (tier_config_for tiers tier).window_minutes * 60)
    (hWpos : 0 < (tier_config_for tiers tier).window_minutes)
    (hres : res = (redis_check_rate_limit store user_id L
      (tier_config_for tiers tier).window_minutes now).1)
    (hr : r = service_check_rate_limit tiers user_id tier system_health
      (.ok res) now) :
    ((r.remaining : Int) = max 0 ((L : Int) - (res.2.1 : Int))) ∧
    (res.1 = true → r.remaining + res.2.1 = L) ∧
    (res.1 = false → r.remaining = 0) ∧
    (r.reset_time = window_start W now + W) ∧
    (("X-RateLimit-Remaining", "0") ∈ rate_limited_headers r request_id now) := by
  subst hr hres hW hL
  simp only [redis_check_rate_limit, rate_limit_script, window_start,
    service_check_rate_limit]
  by_cases hle : calculate_effective_limit tier (tier_config_for tiers tier)
      system_health ≤
    (store (("rate_limit:user:" ++ user_id) ++ ":" ++
      toString (now / ((tier_config_for tiers tier).window_minutes * 60) *
        ((tier_config_for tiers tier).window_minutes * 60)))).count
  · rw [if_pos hle]
    dsimp only
    refine ⟨by omega, ?_, ?_, rfl, by simp [rate_limited_headers]⟩
    · intro h
      exact absurd h (by decide)
    · intro _
      omega
  · rw [if_neg hle]
    dsimp only
    refine ⟨by omega, ?_, ?_, rfl, by simp [rate_limited_headers]⟩
    · intro _
      omega
    · intro h
      exact absurd h (by decide)

/-- Claim C5 (witness): a concrete admitted decision — empty store, free
tier at burst limit 20, window one minute, time 130: the decision has
`remaining = 19`, count 1, `remaining + count = 20`, reset 180, and the
429 shaping carries `X-RateLimit-Remaining: 0`. -/
theorem decision_header_coherence_witness :
    (service_check_rate_limit [("free", ⟨10, 20, 2, 1⟩)] "u1" "free" "NORMAL"
        (.ok ((redis_check_rate_limit (fun _ => none) "u1" 20 1 130).1)) 130).remaining
        + ((redis_check_rate_limit (fun _ => none) "u1" 20 1 130).1).2.1 = 20 := by
  have h := decision_header_coherence (fun _ => none) [("free", ⟨10, 20, 2, 1⟩)]
    "u1" "free" "NORMAL" "rid" 130 20 60
    ((redis_check_rate_limit (fun _ => none) "u1" 20 1 130).1)
    (service_check_rate_limit [("free", ⟨10, 20, 2, 1⟩)] "u1" "free" "NORMAL"
      (.ok ((redis_check_rate_limit (fun _ => none) "u1" 20 1 130).1)) 130)
    (by decide) (by decide) (by decide) rfl rfl
  exact h.2.1 (by decide)

/-! ### Identity directory and API key validation -/

/-- ASCII whitespace stripped by Python's `str.strip()` (the characters
relevant to header values). -/
def is_py_space (c : Char) : Bool :=
  c = ' ' ∨ c = '\t' ∨ c = '\n' ∨ c = '\x0d' ∨ c = '\x0b' ∨ c = '\x0c'

/-- `str.strip()`: drop whitespace from both ends. -/
def py_strip (s : String) : String :=
  String.mk (((s.data.dropWhile is_py_space).reverse.dropWhile
    is_py_space).reverse)

/-- The character set accepted by `APIKeyValidator._is_valid_format`
(`user_service.py` line 275): ASCII letters, digits, underscore,
hyphen. -/
def allowed_key_chars : List Char :=
  "abcdefghijklmnopqrstuvwxyzABCDEFGHIJKLMNOPQRSTUVWXYZ0123456789_-".data

/-- `APIKeyValidator._is_valid_format` from `services/user_service.py`
(lines 257-279): non-empty, length within [10, 200], characters from the
allowed set. -/
def is_valid_format (api_key : String) : Bool :=
  if api_key = "" then false
  else if api_key.length < 10 || 200 < api_key.length then false
  else if ¬ (api_key.data.all (fun c => allowed_key_chars.contains c)) then false
  else true

/-- `UserTierManager.get_user_tier` from `services/user_service.py`
(lines 91-148): look the key up in the key → user map, then the user in
the user → tier map; a missing or falsy (empty) value at either step
yields `none`. -/
def get_user_tier (api_keys users : List (String × String))
    (api_key : String) : Option (String × String) :=
  match api_keys.lookup api_key with
  | none => none
  | some user_id =>
      if user_id = "" then none
      else
        match users.lookup user_id with
        | none => none
        | some tier => if tier = "" then none else some (user_id, tier)

/-- Outcome of `APIKeyValidator.validate_api_key`: either an
`APIKeyError` (HTTP status, error code) or the resolved
`(user_id, tier)` binding. -/
inductive ValidationResult where
  | err (status : Nat) (code : String)
  | ok (user_id tier : String)
deriving DecidableEq, Repr

/-- `APIKeyValidator.validate_api_key` from `services/user_service.py`
(lines 281-440).  Note `if not api_key:` in Python is true both for
`None` and for the empty string, so a present-but-empty key takes the
MISSING branch; only a non-empty key that strips to nothing reaches the
EMPTY branch.  Format is checked before the directory lookup, which is
performed on the stripped key. -/
def validate_api_key (api_keys users : List (String × String))
    (api_key : Option String) : ValidationResult :=
  match api_key with
  | none => .err 401 "MISSING_API_KEY"
  | some k =>
      if k = "" then .err 401 "MISSING_API_KEY"
      else
        let k := py_strip k
        if k = "" then .err 401 "EMPTY_API_KEY"
        else if ¬ is_valid_format k then .err 400 "MALFORMED_API_KEY"
        else
          match get_user_tier api_keys users k with
          | none => .err 401 "INVALID_API_KEY"
          | some (user_id, tier) => .ok user_id tier

/-- Claim C6 (counterexample): the claim assigns every key that is empty
after trimming to `EMPTY_API_KEY`, but the present-but-empty key `""`
falls into Python's `if not api_key:` branch and is reported as
`MISSING_API_KEY`. -/
theorem validate_api_key_empty_cx :
    validate_api_key [] [] (some "") = .err 401 "MISSING_API_KEY" ∧
    ValidationResult.err 401 "MISSING_API_KEY" ≠
      ValidationResult.err 401 "EMPTY_API_KEY" := by
  exact ⟨rfl, by decide⟩

/-- Claim C6 (amended): `validate_api_key` partitions failures exactly
as: a missing (`None`) key — and likewise the literal empty string,
caught by the same falsy test — raises 401 `MISSING_API_KEY`; a
non-empty key that is empty after trimming whitespace raises 401
`EMPTY_API_KEY`; a key with non-empty trim whose length is outside
[10, 200] or containing a character outside `[A-Za-z0-9_-]` raises 400
`MALFORMED_API_KEY`; a well-formed key not resolving to a (user, tier)
pair raises 401 `INVALID_API_KEY`; format is checked before directory
lookup (the MALFORMED outcome is independent of the directories); and a
key passing all checks returns the (user_id, tier) binding.  The final
conjunct identifies the code's format predicate with the claim's
wording. -/
theorem validate_api_key_partition (api_keys users : List (String × String))
    (k : String) :
    (validate_api_key api_keys users none = .err 401 "MISSING_API_KEY") ∧
    (validate_api_key api_keys users (some "") = .err 401 "MISSING_API_KEY") ∧
    (k ≠ "" → py_strip k = "" →
      validate_api_key api_keys users (some k) = .err 401 "EMPTY_API_KEY") ∧
    (py_strip k ≠ "" → is_valid_format (py_strip k) = false →
      validate_api_key api_keys users (some k) = .err 400 "MALFORMED_API_KEY") ∧
    (py_strip k ≠ "" → is_valid_format (py_strip k) = true →
      get_user_tier api_keys users (py_strip k) = none →
      validate_api_key api_keys users (some k) = .err 401 "INVALID_API_KEY") ∧
    (∀ u t, py_strip k ≠ "" → is_valid_format (py_strip k) = true →
      get_user_tier api_keys users (py_strip k) = some (u, t) →
      validate_api_key api_keys users (some k) = .ok u t) ∧
    (is_valid_format (py_strip k) = true ↔
      (10 ≤ (py_strip k).length ∧ (py_strip k).length ≤ 200 ∧
        ∀ c ∈ (py_strip k).data, c ∈ allowed_key_chars)) := by
  have hk0 : py_strip k ≠ "" → k ≠ "" := by
    intro h hk
    exact h (by simp [hk, py_strip])
  refine ⟨rfl, rfl, ?_, ?_, ?_, ?_, ?_⟩
  · intro hne hstrip
    simp [validate_api_key, hne, hstrip]
  · intro hstrip hfmt
    simp [validate_api_key, hk0 hstrip, hstrip, hfmt]
  · intro hstrip hfmt hlook
    simp [validate_api_key, hk0 hstrip, hstrip, hfmt, hlook]
  · intro u t hstrip hfmt hlook
    simp [validate_api_key, hk0 hstrip, hstrip, hfmt, hlook]
  · constructor
    · intro h
      by_cases he : py_strip k = ""
      · rw [is_valid_format, if_pos he] at h
        exact absurd h (by decide)
      · rw [is_valid_format, if_neg he] at h
        by_cases hlen : (py_strip k).length < 10 || 200 < (py_strip k).length
        · rw [if_pos hlen] at h
          exact absurd h (by decide)
        · rw [if_neg hlen] at h
          simp only [Bool.or_eq_true, not_or, decide_eq_true_eq] at hlen
          refine ⟨by omega, by omega, ?_⟩
          by_cases hall : (py_strip k).data.all
              (fun c => allowed_key_chars.contains c)
          · intro c hc
            have := List.all_eq_true.mp hall c hc
            simpa using this
          · rw [if_pos (by simpa using hall)] at h
            exact absurd h (by decide)
    · rintro ⟨h1, h2, h3⟩
      have he : py_strip k ≠ "" := by
        intro h
        rw [h] at h1
        exact absurd h1 (by decide)
      rw [is_valid_format, if_neg he, if_neg (by simp; omega),
        if_neg (by simp; intro c hc; simpa using h3 c hc)]

/-- Claim C6 (witness): the amended partition at concrete inputs — the
whitespace-only key strips to nothing and is classified EMPTY. -/
theorem validate_api_key_partition_witness :
    validate_api_key [] [] (some "  ") = .err 401 "EMPTY_API_KEY" :=
  (validate_api_key_partition [] [] "  ").2.2.1 (by decide) (by decide)

/-! ### Abuse sub-limiter -/

/-- `SecurityRateLimiter.check_invalid_key_attempts` from
`services/user_service.py` (lines 483-515), with the outcome of the
`increment_security_counter` store call passed in: within the limit when
the bumped count does not exceed `max_attempts`; when the store raises,
the request is allowed through ("fail open for security checks" in the
source). -/
def check_invalid_key_attempts (bump_result : Except StoreError Nat)
    (max_attempts : Nat) : Bool :=
  match bump_result with
  | .ok count => if max_attempts < count then false else true
  | .error _ => true

/-- `RedisClient.is_ip_blocked` from `core/redis_client.py`
(lines 540-556), with the outcome of the `EXISTS` call passed in: when
the store raises, the IP is reported unblocked ("If Redis is down, don't
block IPs (fail open)" in the source). -/
def redis_is_ip_blocked (exists_result : Except StoreError Bool) : Bool :=
  match exists_result with
  | .ok blocked => blocked
  | .error _ => false

/-- Claim C2 (counterexample): the claim states the sub-limiter treats a
failed store call as over-limit (fails closed).  In the code both store
touchpoints fail open: a raising attempt-counter bump reports
within-limit (`true`), and a raising blocked-IP pre-check reports
not-blocked (`false`). -/
theorem abuse_fail_open_cx :
    check_invalid_key_attempts (.error .redisError) 10 = true ∧
    redis_is_ip_blocked (.error .redisError) = false :=
  ⟨rfl, rfl⟩

/-! ### Pipeline adapter: exclusions and dispatch -/

/-- `str.rstrip('/')`: drop trailing slashes. -/
def rstrip_slash (s : String) : String :=
  String.mk (s.data.reverse.dropWhile (fun c => (c = '/' : Bool))).reverse

/-- The path normalisation of `_should_exclude_path`
(`middleware/rate_limiter.py` line 310): trim trailing slashes, with the
empty result replaced by the root path (`path.rstrip('/') or '/'`). -/
def normalize_path (p : String) : String :=
  let s := rstrip_slash p
  if s = "" then "/" else s

/-- `str.startswith`, over the character lists. -/
def starts_aux : List Char → List Char → Bool
  | _, [] => true
  | [], _ :: _ => false
  | a :: as, b :: bs => a = b && starts_aux as bs

/-- Whether `s` starts with `pat`. -/
def starts_with (s pat : String) : Bool :=
  starts_aux s.data pat.data

/-- Whether `s` ends with `pat` (`str.endswith`). -/
def ends_with (s pat : String) : Bool :=
  starts_aux s.data.reverse pat.data.reverse

/-- `s[:-2]`, the pattern with its final two characters removed. -/
def drop_last2 (s : String) : String :=
  String.mk (s.data.take (s.data.length - 2))

/-- `RateLimitMiddleware._should_exclude_path` from
`middleware/rate_limiter.py` (lines 299-327): an entry matches by
normalised exact comparison, or — when it ends in `/*` — by comparing
the normalised request path against the entry's normalised stem or any
extension of it by `/`. -/
def should_exclude_path (exclude_paths : List String) (path : String) :
    Bool :=
  let normalized_path := normalize_path path
  exclude_paths.any fun excluded =>
    let normalized_excluded := normalize_path excluded
    (normalized_path == normalized_excluded) ||
    (ends_with excluded "/*" &&
      (let normalized_stem := normalize_path (drop_last2 excluded)
       starts_with normalized_path (normalized_stem ++ "/") ||
       (normalized_path == normalized_stem)))

/-- Modelled from the claim's words (for comparison with the code's
`should_exclude_path`): after trimming trailing slashes from both sides,
the path equals some entry, or some entry ends in `/*` and the path
equals its trimmed stem or starts with that stem followed by `/`. -/
def exclusion_rule_as_claimed (exclude_paths : List String) (path : String) :
    Bool :=
  exclude_paths.any fun excluded =>
    (rstrip_slash path == rstrip_slash excluded) ||
    (ends_with excluded "/*" &&
      (let stem := rstrip_slash (drop_last2 excluded)
       (rstrip_slash path == stem) ||
       starts_with (rstrip_slash path) (stem ++ "/")))

/-- Claim C8 (counterexample): for the exclusion list `["/*"]` and the
path `/foo`, the claim's trimmed-prefix rule (stem `""`, so every path
starting with `/` matches) says the path is excluded, but the code
normalises the empty stem to `/` and requires the path to start with
`//` or equal `/`, so `/foo` is NOT excluded. -/
theorem exclusion_root_star_cx :
    should_exclude_path ["/*"] "/foo" = false ∧
    exclusion_rule_as_claimed ["/*"] "/foo" = true :=
  ⟨rfl, rfl⟩

/-- Per-request inputs to the middleware `dispatch`, with each store
call's outcome passed in explicitly. -/
structure DispatchInput where
  path : String
  request_id : String
  api_key : Option String
  blocked_result : Except StoreError Bool
  bump_result : Except StoreError Nat
  counter_result : Except StoreError (Bool × Nat × Nat)
  system_health : String
  now : Nat

/-- The response category `dispatch` settles on. -/
inductive Outcome where
  | excluded
  | blockedIp
  | identityError (status : Nat) (code : String)
  | ipBlockedAfterAttempts
  | rateLimited (r : RateLimitResult)
  | admitted (r : RateLimitResult)
deriving DecidableEq, Repr

/-- What one `dispatch` run did: its outcome, how many store operations
it attempted, whether identity resolution ran, and the rate-limit
headers it added to the response. -/
structure DispatchResult where
  outcome : Outcome
  store_ops : Nat
  identity_resolution : Bool
  rate_limit_headers : List (String × String)
deriving DecidableEq, Repr

/-- `RateLimitMiddleware.dispatch` from `middleware/rate_limiter.py`
(lines 59-297): excluded paths return the downstream response untouched;
otherwise the order is source-block check, identity resolution (with the
abuse sub-limiter handling failures), then the counter check, shaping
429 or admitted responses with their headers. -/
def dispatch (exclude_paths : List String)
    (api_keys users : List (String × String))
    (tiers : List (String × TierConfig)) (inp : DispatchInput) :
    DispatchResult :=
  if should_exclude_path exclude_paths inp.path then
    -- Skip rate limiting for excluded paths.
    ⟨.excluded, 0, false, []⟩
  else if redis_is_ip_blocked inp.blocked_result then
    ⟨.blockedIp, 1, false, []⟩
  else
    match validate_api_key api_keys users inp.api_key with
    | .err status code =>
        if check_invalid_key_attempts inp.bump_result 10 then
          -- Return the original API key error.
          ⟨.identityError status code, 2, true, []⟩
        else
          -- Too many invalid attempts: block the IP.
          ⟨.ipBlockedAfterAttempts, 3, true, []⟩
    | .ok user_id tier =>
        let r := service_check_rate_limit tiers user_id tier
          inp.system_health inp.counter_result inp.now
        if r.allowed then
          ⟨.admitted r, 2, true, add_rate_limit_headers r⟩
        else
          ⟨.rateLimited r, 2, true,
            rate_limited_headers r inp.request_id inp.now⟩

/-- Every error `validate_api_key` produces carries HTTP status 401 or
400. -/
theorem validate_err_status (api_keys users : List (String × String))
    (k : Option String) {status : Nat} {code : String}
    (h : validate_api_key api_keys users k = .err status code) :
    status = 401 ∨ status = 400 := by
  cases k with
  | none =>
    injection h with h1 _
    exact Or.inl h1.symm
  | some s =>
    simp only [validate_api_key] at h
    split at h
    · injection h with h1 _
      exact Or.inl h1.symm
    · split at h
      · injection h with h1 _
        exact Or.inl h1.symm
      · split at h
        · injection h with h1 _
          exact Or.inr h1.symm
        · split at h
          · injection h with h1 _
            exact Or.inl h1.symm
          · exact absurd h (by simp)

/-- Claim C2 (amended): when the store raises on both abuse-sub-limiter
touchpoints (the `is_ip_blocked` pre-check and the attempt-counter
bump), an unauthenticated request — one whose identity resolution
failed — is still never admitted: the sub-limiter fails open (treats the
failed calls as not-blocked and within-limit), so the request receives
the original identity error, mapped to 401/400; `IP_BLOCKED` semantics
arise only from successful store reads. -/
theorem abuse_store_error_rejects (exclude_paths : List String)
    (api_keys users : List (String × String))
    (tiers : List (String × TierConfig)) (inp : DispatchInput)
    (status : Nat) (code : String) (e1 e2 : StoreError)
    (hex : should_exclude_path exclude_paths inp.path = false)
    (hval : validate_api_key api_keys users inp.api_key = .err status code)
    (hb : inp.blocked_result = .error e1)
    (hc : inp.bump_result = .error e2) :
    (dispatch exclude_paths api_keys users tiers inp).outcome =
      .identityError status code ∧
    (status = 401 ∨ status = 400) := by
  refine ⟨?_, validate_err_status api_keys users inp.api_key hval⟩
  simp [dispatch, hex, hb, hc, hval, redis_is_ip_blocked,
    check_invalid_key_attempts]

/-- Claim C2 (witness): a request with no API key, from a source whose
block check and attempt bump both hit a raising store, gets the 401
MISSING_API_KEY identity error. -/
theorem abuse_store_error_rejects_witness :
    (dispatch ["/health"] [] [] []
        ⟨"/x", "rid", none, .error .redisError, .error .redisError,
          .error .redisError, "NORMAL", 0⟩).outcome =
      Outcome.identityError 401 "MISSING_API_KEY" ∧
    ((401 : Nat) = 401 ∨ (401 : Nat) = 400) :=
  abuse_store_error_rejects ["/health"] [] [] []
    ⟨"/x", "rid", none, .error .redisError, .error .redisError,
      .error .redisError, "NORMAL", 0⟩
    401 "MISSING_API_KEY" .redisError .redisError rfl rfl rfl rfl

/-- Claim C8 (amended): a path is excluded iff some entry matches it
after normalisation — trimming trailing slashes and replacing an empty
result by `/` (exactly the code's `rstrip('/') or '/'`), applied to the
path, the entries, and (this is what the counterexample forces) also to
the stem of a `/*` entry — either exactly, or as the stem itself, or as
the stem followed by `/`; and for every excluded path the core performs
no store operation, no identity resolution, and adds no rate-limit
header. -/
theorem exclusion_matching_spec (exclude_paths : List String)
    (api_keys users : List (String × String))
    (tiers : List (String × TierConfig)) (inp : DispatchInput) :
    (should_exclude_path exclude_paths inp.path = true ↔
      ∃ e ∈ exclude_paths,
        normalize_path inp.path = normalize_path e ∨
        (ends_with e "/*" = true ∧
          (normalize_path inp.path = normalize_path (drop_last2 e) ∨
           starts_with (normalize_path inp.path)
             (normalize_path (drop_last2 e) ++ "/") = true))) ∧
    (should_exclude_path exclude_paths inp.path = true →
      dispatch exclude_paths api_keys users tiers inp =
        ⟨.excluded, 0, false, []⟩) := by
  constructor
  · simp only [should_exclude_path, List.any_eq_true, Bool.or_eq_true,
      Bool.and_eq_true, beq_iff_eq]
    constructor
    · rintro ⟨e, he, h⟩
      exact ⟨e, he, by tauto⟩
    · rintro ⟨e, he, h⟩
      exact ⟨e, he, by tauto⟩
  · intro h
    simp [dispatch, h]

/-- Claim C8 (witness): `/admin/users/` is excluded by the `/admin/*`
entry, and the dispatch for it performs no store operation, no identity
resolution, and adds no header. -/
theorem exclusion_matching_spec_witness :
    dispatch ["/admin/*"] [] [] []
        ⟨"/admin/users/", "rid", none, .ok false, .ok 0, .ok (true, 1, 60),
          "NORMAL", 0⟩ =
      ⟨.excluded, 0, false, []⟩ :=
  (exclusion_matching_spec ["/admin/*"] [] [] []
    ⟨"/admin/users/", "rid", none, .ok false, .ok 0, .ok (true, 1, 60),
      "NORMAL", 0⟩).2 rfl

/-! ### Configuration loading -/

/-- `RateLimitConfig` from `core/models.py`: tier table, user → tier and
key → user maps (the store connection parameters play no role in the
claims). -/
structure RateLimitConfig where
  tiers : List (String × TierConfig)
  users : List (String × String)
  api_keys : List (String × String)
deriving DecidableEq, Repr

/-- The per-tier pydantic validators of `TierConfig` (`core/models.py`
lines 27-46): positive limits and window, `burst_limit ≥ base_limit`. -/
def valid_tier_config (tc : TierConfig) : Bool :=
  0 < tc.base_limit && 0 < tc.burst_limit && 0 < tc.degraded_limit &&
    0 < tc.window_minutes && tc.base_limit ≤ tc.burst_limit

/-- The required tier names (`UserTier` in `core/models.py`). -/
def required_tiers : List String := ["free", "pro", "enterprise"]

/-- The pydantic validators of `RateLimitConfig` (`core/models.py`
lines 59-98): every tier descriptor is valid, the required tiers are all
present, every user references an existing tier, and every API key
references an existing user. -/
def validate_config (c : RateLimitConfig) : Bool :=
  c.tiers.all (fun p => valid_tier_config p.2) &&
  required_tiers.all (fun t => (c.tiers.lookup t).isSome) &&
  c.users.all (fun p => (c.tiers.lookup p.2).isSome) &&
  c.api_keys.all (fun p => (c.users.lookup p.2).isSome)

/-- The built-in default configuration returned by
`ConfigManager._get_default_config` (`core/config.py` lines 215-250). -/
def default_config : RateLimitConfig :=
  { tiers :=
      [("free", ⟨10, 20, 2, 1⟩),
       ("pro", ⟨100, 150, 100, 1⟩),
       ("enterprise", ⟨1000, 1000, 1000, 1⟩)]
    users :=
      [("demo_free_user", "free"), ("demo_pro_user", "pro"),
       ("demo_enterprise_user", "enterprise")]
    api_keys :=
      [("demo_free_key_123", "demo_free_user"),
       ("demo_free_key_456", "demo_free_user"),
       ("demo_pro_key_789", "demo_pro_user"),
       ("demo_enterprise_key_abc", "demo_enterprise_user")] }

/-- The possible states of the configuration document at startup. -/
inductive ConfigLoad where
  | fileMissing
  | jsonError
  | parsed (c : RateLimitConfig)
deriving DecidableEq, Repr

/-- `ConfigManager._load_config` from `core/config.py` (lines 52-143):
a missing file, a JSON parse error, and a document failing pydantic
validation (the `except Exception` arm around
`RateLimitConfig(**config_data)`) all fall back to the built-in default
configuration; a valid document is adopted.  No branch raises. -/
def load_config : ConfigLoad → RateLimitConfig
  | .fileMissing => default_config
  | .jsonError => default_config
  | .parsed c => if validate_config c then c else default_config

/-- Claim C9 (counterexample): a present document whose content fails
validation (here: empty tier table, so every required tier is missing)
does not abort initialisation — `_load_config` swallows the error and
installs the built-in default configuration, which itself passes
validation, so the process continues with substitute values. -/
theorem config_invalid_fallback_cx :
    load_config (.parsed ⟨[], [], []⟩) = default_config ∧
    validate_config default_config = true := by
  refine ⟨by decide, by decide⟩

/-- Claim C9 (amended): if the configuration document is present but
invalid at startup (unparseable JSON, or parsed content failing
validation such as a missing required tier or a user referencing an
unknown tier), initialisation does NOT abort: the configuration manager
logs the error and substitutes the built-in default configuration —
itself valid — and the process continues with those values. -/
theorem config_invalid_fallback :
    load_config .jsonError = default_config ∧
    (∀ c, validate_config c = false → load_config (.parsed c) = default_config) ∧
    validate_config default_config = true := by
  refine ⟨rfl, ?_, by decide⟩
  intro c hc
  simp [load_config, hc]

/-- Claim C9 (witness): a document parsing to a configuration whose user
references an unknown tier is replaced by the default. -/
theorem config_invalid_fallback_witness :
    load_config (.parsed
        ⟨default_config.tiers, [("u1", "platinum")], []⟩) = default_config :=
  config_invalid_fallback.2.1
    ⟨default_config.tiers, [("u1", "platinum")], []⟩ (by decide)

/-! ### Unknown tier fallback (C10) -/

/-- Claim C10: for every tier name with no entry in the configured tier
table (which, having passed validation, always contains `free`, so the
missing name is not `free`), `check_rate_limit` does not fail: it
substitutes the fixed fallback descriptor
`{base 10, burst 10, degraded 2, window 1 minute}`, so such a request is
limited to exactly 10 requests per 60-second window under both NORMAL
and DEGRADED health — the degraded value 2 is never selected. -/
theorem unknown_tier_fallback_limits (tiers : List (String × TierConfig))
    (t : String) (hmiss : tiers.lookup t = none)
    (hfree : (tiers.lookup "free").isSome) :
    tier_config_for tiers t = fallback_tier_config ∧
    calculate_effective_limit t (tier_config_for tiers t) "NORMAL" = 10 ∧
    calculate_effective_limit t (tier_config_for tiers t) "DEGRADED" = 10 ∧
    (tier_config_for tiers t).window_minutes * 60 = 60 := by
  have hcfg : tier_config_for tiers t = fallback_tier_config := by
    simp [tier_config_for, hmiss]
  have htf : t ≠ "free" := by
    intro h
    rw [h] at hmiss
    rw [hmiss] at hfree
    exact absurd hfree (by decide)
  refine ⟨hcfg, ?_, ?_, ?_⟩
  · rw [hcfg]
    rfl
  · rw [hcfg]
    simp [calculate_effective_limit, htf, fallback_tier_config]
  · rw [hcfg]
    rfl

/-- Claim C10 (witness): the tier name `basic` absent from the default
tier table is capped at 10 per 60-second window in both health states. -/
theorem unknown_tier_fallback_limits_witness :
    calculate_effective_limit "basic"
        (tier_config_for default_config.tiers "basic") "NORMAL" = 10 ∧
    calculate_effective_limit "basic"
        (tier_config_for default_config.tiers "basic") "DEGRADED" = 10 := by
  have h := unknown_tier_fallback_limits default_config.tiers "basic"
    (by decide) (by decide)
  exact ⟨h.2.1, h.2.2.1⟩

end RateLimiter
